import Mathlib

/-!
Shallow embedding of the Virtual-Painter core (VirtualPainter.py and
HandTrackingModule.py): the finger-state classifier, the per-frame gesture
resolution acting on the stroke canvas / active color / active header index /
last drawn point, and the frame compositor.

Conventions:
* A landmark snapshot is a `List (ℤ × ℤ)` of (x, y) pixel positions indexed by
  landmark id (the source stores `[id, cx, cy]` triples; indexing `[1:]` yields
  the (x, y) pair, which is what we keep).
* A color is a `ℕ × ℕ × ℕ` in the source's BGR literal order, e.g. `(0, 0, 255)`
  is red, `(0, 0, 0)` is the background.
* The canvas is a total pixel map `ℤ × ℤ → Color` over (x, y) coordinates,
  initialized to the background everywhere (`np.zeros`).
* `cv2.line` with thickness t is modeled as painting the round-capped thick
  segment: every pixel within Euclidean distance t/2 of the segment between the
  two endpoints.  For coincident endpoints OpenCV still paints the round end
  caps, i.e. the disc of radius t/2 around the point, which the model reproduces.
-/

namespace VirtualPainter

abbrev Color := ℕ × ℕ × ℕ

/-- VirtualPainter.py line 10: `POINTER_THICKNESS = 20`. -/
def POINTER_THICKNESS : ℕ := 20

/-- HandTrackingModule.py line 63: `self.tipIds = [4, 8, 12, 16, 20]`. -/
def tipIds : List ℕ := [4, 8, 12, 16, 20]

/-- Landmark position lookup: `landmark_list[i][1:]` giving (x, y).  Out-of-range
access would raise in Python; the claims only index into 21-landmark snapshots,
so the default is never exercised there. -/
def lmPos (l : List (ℤ × ℤ)) (i : ℕ) : ℤ × ℤ := l.getD i (0, 0)

/-- HandTrackingModule.py lines 156-178, `HandDetector.fingersUp`: the thumb
compares x-coordinates (handedness-dependent branch, lines 159-169), the four
other fingers compare the tip's y-coordinate against the landmark two below it
(the `for id in range(1, 5)` loop, lines 172-176, unrolled here).  The source
appends 1/0; we use `true`/`false`. -/
def fingersUp (l : List (ℤ × ℤ)) : List Bool :=
  let thumb :=
    if (lmPos l (tipIds.getD 0 0)).1 < (lmPos l (tipIds.getD 4 0)).1 then
      decide ((lmPos l (tipIds.getD 0 0)).1 < (lmPos l (tipIds.getD 0 0 - 1)).1)
    else
      decide ((lmPos l (tipIds.getD 0 0)).1 > (lmPos l (tipIds.getD 0 0 - 1)).1)
  [thumb,
   decide ((lmPos l (tipIds.getD 1 0)).2 < (lmPos l (tipIds.getD 1 0 - 2)).2),
   decide ((lmPos l (tipIds.getD 2 0)).2 < (lmPos l (tipIds.getD 2 0 - 2)).2),
   decide ((lmPos l (tipIds.getD 3 0)).2 < (lmPos l (tipIds.getD 3 0 - 2)).2),
   decide ((lmPos l (tipIds.getD 4 0)).2 < (lmPos l (tipIds.getD 4 0 - 2)).2)]

/-- The mutable per-session state of VirtualPainter.py: `img_canvas` (line 25),
the last drawn point `last_x, last_y` (line 26, sentinel `(0, 0)` meaning
"no active stroke"), `draw_color` (line 16) and the index of the selected
`header` image into `overlay_list` (line 15). -/
structure PState where
  canvas : ℤ × ℤ → Color
  last : ℤ × ℤ
  draw_color : Color
  headerIdx : ℕ

/-- Membership of pixel z in the round-capped thick segment from p to q with
cap radius r (Euclidean distance from the segment at most r), decided with
integer arithmetic only. -/
def inLineCap (p q : ℤ × ℤ) (r : ℤ) (z : ℤ × ℤ) : Bool :=
  let dx := q.1 - p.1
  let dy := q.2 - p.2
  let wx := z.1 - p.1
  let wy := z.2 - p.2
  let dot := wx * dx + wy * dy
  let len2 := dx * dx + dy * dy
  if dot ≤ 0 then
    decide (wx * wx + wy * wy ≤ r * r)
  else if len2 ≤ dot then
    decide ((z.1 - q.1) * (z.1 - q.1) + (z.2 - q.2) * (z.2 - q.2) ≤ r * r)
  else
    decide ((wx * dy - wy * dx) * (wx * dy - wy * dx) ≤ r * r * len2)

/-- `cv2.line(canvas, p, q, color, t)` (VirtualPainter.py line 68): paint every
pixel of the round-capped thick segment with the color, leave the rest. -/
def drawLine (canvas : ℤ × ℤ → Color) (p q : ℤ × ℤ) (color : Color) (t : ℕ) :
    ℤ × ℤ → Color :=
  fun z => if inLineCap p q ((t : ℤ) / 2) z then color else canvas z

/-- Selection-mode branch, VirtualPainter.py lines 47-62: reset the last point
to the sentinel, then test the toolbar band `y1 < 100` and the four fixed
x-ranges, updating `header` and `draw_color` on a hit.  The highlight rectangle
drawn on the camera image (line 62) is cosmetic and not part of the state. -/
def selectBranch (s : PState) (p1 : ℤ × ℤ) : PState :=
  let s0 := { s with last := (0, 0) }
  if p1.2 < 100 then
    if 60 < p1.1 ∧ p1.1 < 230 then { s0 with headerIdx := 0, draw_color := (0, 0, 255) }
    else if 380 < p1.1 ∧ p1.1 < 550 then { s0 with headerIdx := 1, draw_color := (255, 0, 0) }
    else if 700 < p1.1 ∧ p1.1 < 870 then { s0 with headerIdx := 2, draw_color := (0, 255, 0) }
    else if 1030 < p1.1 ∧ p1.1 < 1250 then { s0 with headerIdx := 3, draw_color := (0, 0, 0) }
    else s0
  else s0

/-- Draw-mode branch, VirtualPainter.py lines 64-69: when the stored last point
is the `(0, 0)` sentinel it is first replaced by the fingertip, then a segment
is drawn from the (possibly just-replaced) last point to the fingertip and the
last point becomes the fingertip.  The pointer circle drawn on the camera image
(line 65) is cosmetic and not part of the state. -/
def drawBranch (s : PState) (p1 : ℤ × ℤ) : PState :=
  let lp := if s.last = (0, 0) then p1 else s.last
  { s with canvas := drawLine s.canvas lp p1 s.draw_color POINTER_THICKNESS,
           last := p1 }

/-- Gesture handling for a frame with a detected hand, VirtualPainter.py lines
42-72: classify fingers, fetch the index fingertip `x1, y1 = lm[tipIds[1]]`,
run the selection / draw branch, then the unconditional all-fingers clear
check (lines 71-72), which resets the canvas but not the last point. -/
def handleGesture (s : PState) (l : List (ℤ × ℤ)) : PState :=
  let f := fingersUp l
  let p1 := lmPos l (tipIds.getD 1 0)
  let s1 :=
    if f.getD 1 false && f.getD 2 false then selectBranch s p1
    else if f.getD 1 false && !(f.getD 2 false) then drawBranch s p1
    else s
  if f.all (fun b => b) then { s1 with canvas := fun _ => (0, 0, 0) } else s1

/-- One frame of gesture resolution, VirtualPainter.py line 41: the whole
gesture block is guarded by `if len(landmark_list) > 0`. -/
def frameGesture (s : PState) (l : List (ℤ × ℤ)) : PState :=
  if 0 < l.length then handleGesture s l else s

/-- `cv2.cvtColor(_, cv2.COLOR_BGR2GRAY)` on a uint8 pixel (VirtualPainter.py
line 76): OpenCV's fixed-point formula (R*4899 + G*9617 + B*1868 + 2^13) >> 14
with the color in (B, G, R) order. -/
def bgr2gray (c : Color) : ℕ :=
  (c.2.2 * 4899 + c.2.1 * 9617 + c.1 * 1868 + 8192) / 16384

/-- `cv2.threshold(gray, 50, 255, cv2.THRESH_BINARY_INV)` then
`cv2.cvtColor(_, cv2.COLOR_GRAY2BGR)` per pixel (VirtualPainter.py lines
77-78): painted (gray above 50) becomes 0, background becomes 255, replicated
over the three channels. -/
def maskPix (c : Color) : ℕ :=
  if 50 < bgr2gray c then 0 else 255

/-- `cv2.bitwise_and(img, img_inv)` followed by `cv2.bitwise_or(img, img_canvas)`
on one pixel (VirtualPainter.py lines 79-80). -/
def compositePix (framePix canvasPix : Color) : Color :=
  let m := maskPix canvasPix
  ((framePix.1 &&& m) ||| canvasPix.1,
   (framePix.2.1 &&& m) ||| canvasPix.2.1,
   (framePix.2.2 &&& m) ||| canvasPix.2.2)

/-- The mask compositing steps of VirtualPainter.py lines 76-80 applied to a
whole frame (no header paste). -/
def compositeImage (frame canvas : ℤ × ℤ → Color) : ℤ × ℤ → Color :=
  fun z => compositePix (frame z) (canvas z)

/-- The full merge of VirtualPainter.py lines 74-80: first
`img[0:header.shape[0], 0:header.shape[1]] = header` pastes the header into the
top-left corner, then the mask compositing with the canvas runs on the result.
`hH`/`hW` are the header image's height and width. -/
def mergeFrame (frame canvas header : ℤ × ℤ → Color) (hH hW : ℤ) :
    ℤ × ℤ → Color :=
  fun z =>
    let pasted := if 0 ≤ z.2 ∧ z.2 < hH ∧ 0 ≤ z.1 ∧ z.1 < hW then header z else frame z
    compositePix pasted (canvas z)

/-- The union of the four toolbar x-ranges of VirtualPainter.py lines 50-61. -/
def inToolbarRegion (x : ℤ) : Prop :=
  (60 < x ∧ x < 230) ∨ (380 < x ∧ x < 550) ∨ (700 < x ∧ x < 870) ∨ (1030 < x ∧ x < 1250)

instance (x : ℤ) : Decidable (inToolbarRegion x) := by
  unfold inToolbarRegion; infer_instance

/-- A concrete 21-landmark snapshot on which the classifier reports all five
fingers up: landmark 4 at x=10 with landmarks 3 and 20 at x=0 (right-hand
thumb branch, `10 > 0`), and each non-thumb tip at y=5 below-joint y=10. -/
def allUpSnapshot : List (ℤ × ℤ) :=
  [(0, 10), (0, 10), (0, 10), (0, 10), (10, 10),
   (0, 10), (0, 10), (0, 10), (0, 5), (0, 10),
   (0, 10), (0, 10), (0, 5), (0, 10), (0, 10),
   (0, 10), (0, 5), (0, 10), (0, 10), (0, 10), (0, 5)]

/-- Like `allUpSnapshot` but with the index fingertip (landmark 8) at
`(100, 50)` inside toolbar region 0, landmark 6 moved to y=100 so the index
finger still counts as up. -/
def selectSnapshot : List (ℤ × ℤ) :=
  [(0, 10), (0, 10), (0, 10), (0, 10), (10, 10),
   (0, 10), (0, 100), (0, 10), (100, 50), (0, 10),
   (0, 10), (0, 10), (0, 5), (0, 10), (0, 10),
   (0, 10), (0, 5), (0, 10), (0, 10), (0, 10), (0, 5)]

/-! Helper lemmas about the branches. -/

theorem selectBranch_last (s : PState) (p1 : ℤ × ℤ) :
    (selectBranch s p1).last = (0, 0) := by
  unfold selectBranch
  repeat' split
  all_goals rfl

theorem selectBranch_canvas (s : PState) (p1 : ℤ × ℤ) :
    (selectBranch s p1).canvas = s.canvas := by
  unfold selectBranch
  repeat' split
  all_goals rfl

theorem selectBranch_change (s : PState) (p1 : ℤ × ℤ)
    (h : (selectBranch s p1).draw_color ≠ s.draw_color ∨
      (selectBranch s p1).headerIdx ≠ s.headerIdx) :
    p1.2 < 100 ∧ inToolbarRegion p1.1 := by
  unfold selectBranch at h
  unfold inToolbarRegion
  split at h
  case isFalse h100 => simp at h
  case isTrue h100 =>
    refine ⟨h100, ?_⟩
    split at h
    case isTrue h0 => exact Or.inl h0
    case isFalse =>
      split at h
      case isTrue h1 => exact Or.inr (Or.inl h1)
      case isFalse =>
        split at h
        case isTrue h2 => exact Or.inr (Or.inr (Or.inl h2))
        case isFalse =>
          split at h
          case isTrue h3 => exact Or.inr (Or.inr (Or.inr h3))
          case isFalse => simp at h

theorem drawBranch_color (s : PState) (p1 : ℤ × ℤ) :
    (drawBranch s p1).draw_color = s.draw_color := rfl

theorem drawBranch_header (s : PState) (p1 : ℤ × ℤ) :
    (drawBranch s p1).headerIdx = s.headerIdx := rfl

theorem fingersUp_explicit (l : List (ℤ × ℤ)) :
    ∃ b0 b1 b2 b3 b4, fingersUp l = [b0, b1, b2, b3, b4] :=
  ⟨_, _, _, _, _, rfl⟩

/-! Claim theorems. -/

/-- C6 (confirmed): the finger-state classifier returns exactly the five
booleans of the claim — for tips 8/12/16/20 up iff `y(tip) < y(tip - 2)`
(strict), and for the thumb the handedness-dependent x-comparison against
landmark 3, switched on `x(4) < x(20)`. -/
theorem c6_fingers_classifier (l : List (ℤ × ℤ)) :
    fingersUp l =
      [if (lmPos l 4).1 < (lmPos l 20).1 then
         decide ((lmPos l 4).1 < (lmPos l 3).1)
       else
         decide ((lmPos l 4).1 > (lmPos l 3).1),
       decide ((lmPos l 8).2 < (lmPos l 6).2),
       decide ((lmPos l 12).2 < (lmPos l 10).2),
       decide ((lmPos l 16).2 < (lmPos l 14).2),
       decide ((lmPos l 20).2 < (lmPos l 18).2)] := rfl

/-- C8 (confirmed): when the pose model reports zero hands (empty landmark
list), gesture resolution is skipped entirely and the stroke canvas, the
active color, the active header index and the last point are all exactly
unchanged. -/
theorem c8_no_hand_frame_unchanged (s : PState) : frameGesture s [] = s := rfl

/-- C1 (counterexample): a hand-detected frame whose resolved mode is Idle
(index finger down, here all fingers down) with a non-null stored last point —
after the frame's gesture resolution the last point is still `(5, 5)`, not the
null sentinel `(0, 0)`, refuting the claimed reset. -/
theorem c1_counterexample :
    0 < (List.replicate 21 ((0 : ℤ), (0 : ℤ))).length ∧
    (fingersUp (List.replicate 21 ((0 : ℤ), (0 : ℤ)))).getD 1 false = false ∧
    (frameGesture ⟨fun _ => (0, 0, 0), (5, 5), (0, 0, 255), 0⟩
      (List.replicate 21 ((0 : ℤ), (0 : ℤ)))).last ≠ (0, 0) :=
  ⟨by decide, by decide, by decide⟩

/-- C1 (corrected): on a hand-detected Idle frame (index finger down, so no
selection, no drawing and no clearing fires) the whole state — in particular
the last point — is left exactly unchanged; the source never resets the last
point on Idle frames. -/
theorem c1_idle_leaves_state_unchanged (s : PState) (l : List (ℤ × ℤ))
    (hdet : 0 < l.length)
    (hidle : (fingersUp l).getD 1 false = false) :
    frameGesture s l = s := by
  obtain ⟨b0, b1, b2, b3, b4, hf⟩ := fingersUp_explicit l
  rw [hf] at hidle
  simp only [List.getD_cons_succ, List.getD_cons_zero] at hidle
  subst hidle
  rw [frameGesture, if_pos hdet]
  simp [handleGesture, hf]

/-- C1 witness: the amended theorem applied to the all-zero 21-landmark
snapshot and a state whose last point is `(5, 5)`. -/
theorem c1_witness :
    0 < (List.replicate 21 ((0 : ℤ), (0 : ℤ))).length ∧
    (fingersUp (List.replicate 21 ((0 : ℤ), (0 : ℤ)))).getD 1 false = false ∧
    frameGesture ⟨fun _ => (0, 0, 0), (5, 5), (0, 0, 255), 0⟩
        (List.replicate 21 ((0 : ℤ), (0 : ℤ))) =
      ⟨fun _ => (0, 0, 0), (5, 5), (0, 0, 255), 0⟩ :=
  ⟨by decide, by decide,
    c1_idle_leaves_state_unchanged _ _ (by decide) (by decide)⟩

/-- C2 (confirmed): on a hand-detected frame where all five fingers are up,
gesture resolution ends with every canvas pixel at background and the last
point at the null sentinel, for arbitrary fingertip positions — the selection
branch (which always fires alongside the clear, since index and middle are up)
resets the last point, and the clear check resets the canvas. -/
theorem c2_all_up_clears_canvas (s : PState) (l : List (ℤ × ℤ))
    (hdet : 0 < l.length)
    (hall : (fingersUp l).all (fun b => b) = true) :
    (frameGesture s l).canvas = (fun _ => (0, 0, 0)) ∧
    (frameGesture s l).last = (0, 0) := by
  obtain ⟨b0, b1, b2, b3, b4, hf⟩ := fingersUp_explicit l
  rw [hf] at hall
  simp only [List.all_cons, List.all_nil, Bool.and_true, Bool.and_eq_true] at hall
  obtain ⟨h0, h1, h2, h3, h4⟩ := hall
  subst h0; subst h1; subst h2; subst h3; subst h4
  rw [frameGesture, if_pos hdet]
  simp [handleGesture, hf, selectBranch_last]

/-- C2 witness: a concrete 21-landmark snapshot with all five fingers up,
applied to a state with a dirty canvas and a non-null last point. -/
theorem c2_witness :
    0 < allUpSnapshot.length ∧
    (fingersUp allUpSnapshot).all (fun b => b) = true ∧
    ((frameGesture ⟨fun _ => (9, 9, 9), (7, 7), (0, 0, 255), 0⟩ allUpSnapshot).canvas =
        (fun _ => (0, 0, 0)) ∧
      (frameGesture ⟨fun _ => (9, 9, 9), (7, 7), (0, 0, 255), 0⟩ allUpSnapshot).last = (0, 0)) :=
  ⟨by decide, by decide,
    c2_all_up_clears_canvas _ allUpSnapshot (by decide) (by decide)⟩

/-- C3 (counterexample): `continueStroke` with a null last point does change
pixels — on an all-background canvas with the last point at the null sentinel,
a call at `(100, 100)` with color `(0, 0, 255)` turns pixel `(100, 100)` red:
`cv2.line` is invoked with both endpoints at the fingertip and paints the
round end caps, so the claim "changes no pixel" is false. -/
theorem c3_counterexample :
    (drawBranch ⟨fun _ => (0, 0, 0), (0, 0), (0, 0, 255), 0⟩ (100, 100)).canvas
        (100, 100) = (0, 0, 255) ∧
    ((0, 0, 255) : Color) ≠ ((0, 0, 0) : Color) :=
  ⟨by decide, by decide⟩

/-- C3 (corrected): with a null last point, `continueStroke` records the point
as the new last point and stamps exactly the degenerate segment from the point
to itself (a round dot of the stroke radius) rather than leaving the canvas
untouched; provided the recorded point is not itself the `(0, 0)` sentinel,
the very next call draws exactly one segment from the first point to the
second and updates the last point to the second point. -/
theorem c3_null_last_stamps_dot_then_segment (s : PState) (p q : ℤ × ℤ)
    (h0 : s.last = (0, 0)) (hp : p ≠ (0, 0)) :
    (drawBranch s p).last = p ∧
    (drawBranch s p).canvas =
      (fun z => if inLineCap p p 10 z then s.draw_color else s.canvas z) ∧
    (drawBranch (drawBranch s p) q).last = q ∧
    (drawBranch (drawBranch s p) q).canvas =
      (fun z => if inLineCap p q 10 z then s.draw_color
                else (drawBranch s p).canvas z) := by
  have hp0 : p ≠ 0 := hp
  unfold drawBranch drawLine
  simp [h0, hp0, POINTER_THICKNESS]

/-- C3 witness: the amended theorem at last point null, first point
`(100, 100)`, second point `(110, 105)`. -/
theorem c3_witness :
    ((⟨fun _ => (0, 0, 0), (0, 0), (0, 0, 255), 0⟩ : PState).last = (0, 0) ∧
      ((100, 100) : ℤ × ℤ) ≠ (0, 0)) ∧
    ((drawBranch ⟨fun _ => (0, 0, 0), (0, 0), (0, 0, 255), 0⟩ (100, 100)).last = (100, 100) ∧
      (drawBranch ⟨fun _ => (0, 0, 0), (0, 0), (0, 0, 255), 0⟩ (100, 100)).canvas =
        (fun z => if inLineCap (100, 100) (100, 100) 10 z then (0, 0, 255)
                  else (fun _ => ((0 : ℕ), (0 : ℕ), (0 : ℕ))) z) ∧
      (drawBranch (drawBranch ⟨fun _ => (0, 0, 0), (0, 0), (0, 0, 255), 0⟩ (100, 100))
          (110, 105)).last = (110, 105) ∧
      (drawBranch (drawBranch ⟨fun _ => (0, 0, 0), (0, 0), (0, 0, 255), 0⟩ (100, 100))
          (110, 105)).canvas =
        (fun z => if inLineCap (100, 100) (110, 105) 10 z then (0, 0, 255)
                  else (drawBranch ⟨fun _ => (0, 0, 0), (0, 0), (0, 0, 255), 0⟩
                    (100, 100)).canvas z)) :=
  ⟨⟨rfl, by decide⟩,
    c3_null_last_stamps_dot_then_segment _ _ _ rfl (by decide)⟩

/-- C10 (confirmed): the null last point is the sentinel `(0, 0)`, which
aliases the real pixel `(0, 0)`: whenever the stored last point equals
`(0, 0)` — including when the previous drawing frame's fingertip was exactly
at pixel `(0, 0)`, which stores `(0, 0)` back (third conjunct) — the next
drawing frame starts the stroke fresh: it records the fingertip as the new
last point and paints only the degenerate dot at the fingertip, never a
connecting segment to the prior point. -/
theorem c10_zero_sentinel_alias (s t : PState) (p : ℤ × ℤ)
    (h0 : s.last = (0, 0)) :
    (drawBranch s p).last = p ∧
    (drawBranch s p).canvas =
      (fun z => if inLineCap p p 10 z then s.draw_color else s.canvas z) ∧
    (drawBranch t (0, 0)).last = (0, 0) := by
  unfold drawBranch drawLine
  simp [h0, POINTER_THICKNESS]

/-- C10 witness: the theorem at a state whose previous drawing frame ended at
pixel `(0, 0)` and a next fingertip `(300, 400)`. -/
theorem c10_witness :
    ((⟨fun _ => (0, 0, 0), (0, 0), (255, 0, 0), 1⟩ : PState).last = (0, 0)) ∧
    ((drawBranch ⟨fun _ => (0, 0, 0), (0, 0), (255, 0, 0), 1⟩ (300, 400)).last = (300, 400) ∧
      (drawBranch ⟨fun _ => (0, 0, 0), (0, 0), (255, 0, 0), 1⟩ (300, 400)).canvas =
        (fun z => if inLineCap (300, 400) (300, 400) 10 z then (255, 0, 0)
                  else (fun _ => ((0 : ℕ), (0 : ℕ), (0 : ℕ))) z) ∧
      (drawBranch ⟨fun _ => (0, 0, 0), (50, 60), (255, 0, 0), 1⟩ (0, 0)).last = (0, 0)) :=
  ⟨rfl, c10_zero_sentinel_alias _ _ _ rfl⟩

/-- C5 (counterexample): the canvas is not append-only under toolbar colors —
after painting pixel `(100, 100)` red, selecting toolbar region 3 (index
fingertip `(1100, 50)`, bound color `(0, 0, 0)`) and drawing at `(100, 100)`
again returns that painted pixel to background without any full clear. -/
theorem c5_counterexample :
    (drawBranch ⟨fun _ => (0, 0, 0), (0, 0), (0, 0, 255), 0⟩ (100, 100)).canvas
        (100, 100) ≠ (0, 0, 0) ∧
    (selectBranch (drawBranch ⟨fun _ => (0, 0, 0), (0, 0), (0, 0, 255), 0⟩ (100, 100))
        (1100, 50)).draw_color = (0, 0, 0) ∧
    (drawBranch (selectBranch
        (drawBranch ⟨fun _ => (0, 0, 0), (0, 0), (0, 0, 255), 0⟩ (100, 100))
        (1100, 50)) (100, 100)).canvas (100, 100) = (0, 0, 0) :=
  ⟨by decide, by decide, by decide⟩

/-- C5 (corrected): the append-only invariant holds for every sequence of
`continueStroke` operations only as long as the active color is not the
background `(0, 0, 0)`; toolbar region 3 binds exactly that color, and drawing
with it sets painted pixels back to background (it erases).  With a
non-background active color, no painted pixel ever returns to background
without a full clear. -/
theorem c5_append_only_nonbackground (s : PState) (ps : List (ℤ × ℤ))
    (hc : s.draw_color ≠ (0, 0, 0)) (z : ℤ × ℤ)
    (hz : s.canvas z ≠ (0, 0, 0)) :
    (ps.foldl drawBranch s).canvas z ≠ (0, 0, 0) := by
  induction ps generalizing s with
  | nil => exact hz
  | cons p ps ih =>
    simp only [List.foldl_cons]
    refine ih (drawBranch s p) hc ?_
    unfold drawBranch drawLine
    dsimp only
    split <;> split <;> first | exact hc | exact hz

/-- C5 witness: the amended theorem for a red stroke over a canvas whose pixel
`(100, 100)` is already painted, across two further draw calls. -/
theorem c5_witness :
    ((⟨fun _ => (0, 0, 255), (0, 0), (0, 0, 255), 0⟩ : PState).draw_color ≠ (0, 0, 0) ∧
      (⟨fun _ => (0, 0, 255), (0, 0), (0, 0, 255), 0⟩ : PState).canvas (100, 100) ≠ (0, 0, 0)) ∧
    (([(100, 100), (110, 105)] : List (ℤ × ℤ)).foldl drawBranch
        ⟨fun _ => (0, 0, 255), (0, 0), (0, 0, 255), 0⟩).canvas (100, 100) ≠ (0, 0, 0) :=
  ⟨⟨by decide, by decide⟩,
    c5_append_only_nonbackground _ _ (by decide) _ (by decide)⟩

theorem land255_of_le (x : ℕ) (hx : x ≤ 255) : x &&& 255 = x := by
  have h : x &&& 2 ^ 8 - 1 = x :=
    Nat.and_pow_two_sub_one_of_lt_two_pow (by omega)
  simpa using h

/-- Compositing a background pixel passes a uint8 frame pixel through
unchanged: the inverse mask is 255 there, and `(x AND 255) OR 0 = x`. -/
theorem compositePix_background (fp : Color)
    (hB : fp.1 ≤ 255) (hG : fp.2.1 ≤ 255) (hR : fp.2.2 ≤ 255) :
    compositePix fp (0, 0, 0) = fp := by
  unfold compositePix maskPix bgr2gray
  norm_num [land255_of_le _ hB, land255_of_le _ hG, land255_of_le _ hR]

/-- C9 (confirmed): the mask computation (grayscale, threshold at 50, inverse
mask, bitwise AND with the frame, bitwise OR with the canvas) applied to an
all-zero canvas is the identity on the live frame at every pixel with uint8
channel values. -/
theorem c9_composite_identity_on_empty_canvas (frame : ℤ × ℤ → Color)
    (z : ℤ × ℤ) (hB : (frame z).1 ≤ 255) (hG : (frame z).2.1 ≤ 255)
    (hR : (frame z).2.2 ≤ 255) :
    compositeImage frame (fun _ => (0, 0, 0)) z = frame z :=
  compositePix_background (frame z) hB hG hR

/-- C9 witness: the identity at a concrete frame pixel `(17, 200, 255)`. -/
theorem c9_witness :
    (((fun _ => (17, 200, 255) : ℤ × ℤ → Color) (3, 4)).1 ≤ 255 ∧
      ((fun _ => (17, 200, 255) : ℤ × ℤ → Color) (3, 4)).2.1 ≤ 255 ∧
      ((fun _ => (17, 200, 255) : ℤ × ℤ → Color) (3, 4)).2.2 ≤ 255) ∧
    compositeImage (fun _ => (17, 200, 255)) (fun _ => (0, 0, 0)) (3, 4) =
      (fun _ => (17, 200, 255) : ℤ × ℤ → Color) (3, 4) :=
  ⟨⟨by decide, by decide, by decide⟩,
    c9_composite_identity_on_empty_canvas _ _ (by decide) (by decide) (by decide)⟩

/-- C4 (counterexample): with an all-`(255, 255, 255)` header of height 100 and
width 1280, an all-red canvas and an all-black live frame, the composited
output at `(10, 10)` — inside the header sub-rectangle — is `(0, 0, 255)`, not
the header's `(255, 255, 255)`: the painted canvas shows through the header,
refuting the claim that the header region equals the header unconditionally. -/
theorem c4_counterexample :
    ((0 : ℤ) ≤ 10 ∧ (10 : ℤ) < 100 ∧ (0 : ℤ) ≤ 10 ∧ (10 : ℤ) < 1280) ∧
    mergeFrame (fun _ => (0, 0, 0)) (fun _ => (0, 0, 255)) (fun _ => (255, 255, 255))
        100 1280 (10, 10) = (0, 0, 255) ∧
    ((0, 0, 255) : Color) ≠ ((255, 255, 255) : Color) :=
  ⟨by decide, by decide, by decide⟩

/-- C4 (corrected): the header paste happens before the mask-based canvas
compositing, not after it — inside the header sub-rectangle the output is the
composite of the header pixel with the canvas pixel, so painted canvas pixels
there do show through in the output. -/
theorem c4_header_pasted_before_compositing (frame canvas header : ℤ × ℤ → Color)
    (hH hW : ℤ) (z : ℤ × ℤ)
    (hz : 0 ≤ z.2 ∧ z.2 < hH ∧ 0 ≤ z.1 ∧ z.1 < hW) :
    mergeFrame frame canvas header hH hW z = compositePix (header z) (canvas z) := by
  unfold mergeFrame
  simp [hz]

/-- C4 witness: the amended theorem at pixel `(10, 10)` of a 100×1280 header. -/
theorem c4_witness :
    ((0 : ℤ) ≤ ((10, 10) : ℤ × ℤ).2 ∧ ((10, 10) : ℤ × ℤ).2 < 100 ∧
      (0 : ℤ) ≤ ((10, 10) : ℤ × ℤ).1 ∧ ((10, 10) : ℤ × ℤ).1 < 1280) ∧
    mergeFrame (fun _ => (0, 0, 0)) (fun _ => (0, 0, 255)) (fun _ => (255, 255, 255))
        100 1280 (10, 10) =
      compositePix ((fun _ => ((255 : ℕ), (255 : ℕ), (255 : ℕ))) ((10, 10) : ℤ × ℤ))
        ((fun _ => ((0 : ℕ), (0 : ℕ), (255 : ℕ))) ((10, 10) : ℤ × ℤ)) :=
  ⟨by decide,
    c4_header_pasted_before_compositing _ _ _ 100 1280 (10, 10) (by decide)⟩

theorem ite_clear_color (c : Prop) [Decidable c] (a : PState) (k : ℤ × ℤ → Color) :
    (if c then { a with canvas := k } else a).draw_color = a.draw_color := by
  split <;> rfl

theorem ite_clear_header (c : Prop) [Decidable c] (a : PState) (k : ℤ × ℤ → Color) :
    (if c then { a with canvas := k } else a).headerIdx = a.headerIdx := by
  split <;> rfl

/-- C7 (confirmed): the active color and header index change during a frame
only when index and middle fingers are up (the selection branch) and the index
fingertip is inside the toolbar band `y < 100` within one of the four fixed
x-ranges; and in selection mode the fingertip `(100, 50)` yields header 0 with
color `(0, 0, 255)` while `(400, 50)` yields header 1 with its color
`(255, 0, 0)`. -/
theorem c7_color_header_selection_only (s : PState) (l : List (ℤ × ℤ))
    (hchg : (frameGesture s l).draw_color ≠ s.draw_color ∨
      (frameGesture s l).headerIdx ≠ s.headerIdx) :
    (fingersUp l).getD 1 false = true ∧ (fingersUp l).getD 2 false = true ∧
    (lmPos l 8).2 < 100 ∧ inToolbarRegion (lmPos l 8).1 ∧
    (selectBranch s (100, 50)).headerIdx = 0 ∧
    (selectBranch s (100, 50)).draw_color = (0, 0, 255) ∧
    (selectBranch s (400, 50)).headerIdx = 1 ∧
    (selectBranch s (400, 50)).draw_color = (255, 0, 0) := by
  have hsel0h : (selectBranch s (100, 50)).headerIdx = 0 := by norm_num [selectBranch]
  have hsel0c : (selectBranch s (100, 50)).draw_color = (0, 0, 255) := by
    norm_num [selectBranch]
  have hsel1h : (selectBranch s (400, 50)).headerIdx = 1 := by norm_num [selectBranch]
  have hsel1c : (selectBranch s (400, 50)).draw_color = (255, 0, 0) := by
    norm_num [selectBranch]
  by_cases hlen : 0 < l.length
  case neg =>
    rw [frameGesture, if_neg hlen] at hchg
    rcases hchg with h | h <;> exact absurd rfl h
  case pos =>
    rw [frameGesture, if_pos hlen] at hchg
    obtain ⟨b0, b1, b2, b3, b4, hf⟩ := fingersUp_explicit l
    rw [hf]
    simp only [List.getD_cons_succ, List.getD_cons_zero]
    simp only [handleGesture, hf, List.getD_cons_succ, List.getD_cons_zero,
      ite_clear_color, ite_clear_header] at hchg
    cases b1 with
    | false => simp at hchg
    | true =>
      cases b2 with
      | false => simp [drawBranch_color, drawBranch_header] at hchg
      | true =>
        simp only [Bool.and_self, if_pos] at hchg
        obtain ⟨h100, hreg⟩ := selectBranch_change s _ hchg
        exact ⟨rfl, rfl, h100, hreg, hsel0h, hsel0c, hsel1h, hsel1c⟩

/-- C7 witness: a snapshot with all fingers up and the index fingertip at
`(100, 50)` changes the active color of a green-pen state, and the theorem's
conclusions evaluate there. -/
theorem c7_witness :
    ((frameGesture ⟨fun _ => (0, 0, 0), (0, 0), (0, 255, 0), 2⟩ selectSnapshot).draw_color ≠
        (⟨fun _ => (0, 0, 0), (0, 0), (0, 255, 0), 2⟩ : PState).draw_color ∨
      (frameGesture ⟨fun _ => (0, 0, 0), (0, 0), (0, 255, 0), 2⟩ selectSnapshot).headerIdx ≠
        (⟨fun _ => (0, 0, 0), (0, 0), (0, 255, 0), 2⟩ : PState).headerIdx) ∧
    ((fingersUp selectSnapshot).getD 1 false = true ∧
      (fingersUp selectSnapshot).getD 2 false = true ∧
      (lmPos selectSnapshot 8).2 < 100 ∧ inToolbarRegion (lmPos selectSnapshot 8).1 ∧
      (selectBranch ⟨fun _ => (0, 0, 0), (0, 0), (0, 255, 0), 2⟩ (100, 50)).headerIdx = 0 ∧
      (selectBranch ⟨fun _ => (0, 0, 0), (0, 0), (0, 255, 0), 2⟩ (100, 50)).draw_color = (0, 0, 255) ∧
      (selectBranch ⟨fun _ => (0, 0, 0), (0, 0), (0, 255, 0), 2⟩ (400, 50)).headerIdx = 1 ∧
      (selectBranch ⟨fun _ => (0, 0, 0), (0, 0), (0, 255, 0), 2⟩ (400, 50)).draw_color = (255, 0, 0)) :=
  ⟨Or.inl (by decide),
    c7_color_header_selection_only _ selectSnapshot (Or.inl (by decide))⟩

end VirtualPainter
